import Mathlib

/-!
Shallow embedding of the fairness-metrics core of the DeepBridge fairness
framework: the metric functions of `src/metrics.py` and the
`FairnessDetector` operations of `src/fairness_detector.py`.
Machine floats are modelled as rationals; numpy arrays as lists; the
categorical values of a sensitive-attribute column as rationals ordered
the way `np.unique` sorts them; a raised Python exception as the
`Except.error` branch of the return value.
-/

/-- Arithmetic mean of a list of rationals (`np.mean`); the empty list gives
0 by rational division-by-zero, a case no reachable call site hits. -/
def mean (l : List ℚ) : ℚ := l.sum / l.length

/-- Boolean-mask selection `y[sensitive == g]`: the entries of `y` whose
aligned row in `sensitive` equals `g`. -/
def selectRows : List ℚ → List ℚ → ℚ → List ℚ
  | y :: ys, a :: rest, g =>
      if a = g then y :: selectRows ys rest g else selectRows ys rest g
  | _, _, _ => []

/-- Boolean-mask selection `y_pred[(sensitive == g) & (y_true == c)]`. -/
def selectRows2 : List ℚ → List ℚ → List ℚ → ℚ → ℚ → List ℚ
  | p :: ps, t :: ts, a :: rest, c, g =>
      if a = g ∧ t = c then p :: selectRows2 ps ts rest c g
      else selectRows2 ps ts rest c g
  | _, _, _, _, _ => []

/-- Ordered insertion skipping duplicates: one step of `np.unique`. -/
def insertSortedNoDup (x : ℚ) : List ℚ → List ℚ
  | [] => [x]
  | y :: ys =>
      if x < y then x :: y :: ys
      else if x = y then y :: ys
      else y :: insertSortedNoDup x ys

/-- `np.unique`: the distinct values of the array in ascending order. -/
def uniqueSorted (s : List ℚ) : List ℚ := s.foldr insertSortedNoDup []

/-- The message of the `ValueError` every two-group metric raises when the
sensitive attribute does not have exactly two distinct values. -/
def cardinalityError : String := "Currently only supports binary sensitive attributes"

/-- `demographic_parity_difference` of `src/metrics.py`: positive rate of the
second sorted group minus that of the first. -/
def demographic_parity_difference (y_pred sensitive : List ℚ) : Except String ℚ :=
  match uniqueSorted sensitive with
  | [g0, g1] =>
      .ok (mean (selectRows y_pred sensitive g1) - mean (selectRows y_pred sensitive g0))
  | _ => .error cardinalityError

/-- `_tpr_difference` of `src/metrics.py`: true-positive-rate difference
between the two groups, an empty positive-ground-truth mask giving rate 0. -/
def _tpr_difference (y_true y_pred sensitive : List ℚ) (g0 g1 : ℚ) : ℚ :=
  let mask_0_pos := selectRows2 y_pred y_true sensitive 1 g0
  let tpr_0 := if mask_0_pos = [] then 0 else mean mask_0_pos
  let mask_1_pos := selectRows2 y_pred y_true sensitive 1 g1
  let tpr_1 := if mask_1_pos = [] then 0 else mean mask_1_pos
  tpr_1 - tpr_0

/-- `_fpr_difference` of `src/metrics.py`: false-positive-rate difference
between the two groups, an empty negative-ground-truth mask giving rate 0. -/
def _fpr_difference (y_true y_pred sensitive : List ℚ) (g0 g1 : ℚ) : ℚ :=
  let mask_0_neg := selectRows2 y_pred y_true sensitive 0 g0
  let fpr_0 := if mask_0_neg = [] then 0 else mean mask_0_neg
  let mask_1_neg := selectRows2 y_pred y_true sensitive 0 g1
  let fpr_1 := if mask_1_neg = [] then 0 else mean mask_1_neg
  fpr_1 - fpr_0

/-- `equalized_odds_difference` of `src/metrics.py`:
`max(abs(tpr_diff), abs(fpr_diff))` over the two sorted groups. -/
def equalized_odds_difference (y_true y_pred sensitive : List ℚ) : Except String ℚ :=
  match uniqueSorted sensitive with
  | [g0, g1] =>
      .ok (max |_tpr_difference y_true y_pred sensitive g0 g1|
               |_fpr_difference y_true y_pred sensitive g0 g1|)
  | _ => .error cardinalityError

/-- `equal_opportunity_difference` of `src/metrics.py`: the signed
true-positive-rate difference alone. -/
def equal_opportunity_difference (y_true y_pred sensitive : List ℚ) : Except String ℚ :=
  match uniqueSorted sensitive with
  | [g0, g1] => .ok (_tpr_difference y_true y_pred sensitive g0 g1)
  | _ => .error cardinalityError

/-- The value domain of `disparate_impact_ratio`: a finite float or the
`float('inf')` returned on a 0-rate first group with a nonzero second. -/
inductive DIValue where
  | val : ℚ → DIValue
  | inf : DIValue
deriving DecidableEq

/-- `disparate_impact_ratio` of `src/metrics.py`: rate(group 1) / rate(group 0),
with the explicit zero-denominator branches of the source. -/
def disparate_impact_ratio (y_pred sensitive : List ℚ) : Except String DIValue :=
  match uniqueSorted sensitive with
  | [g0, g1] =>
      let rate_0 := mean (selectRows y_pred sensitive g0)
      let rate_1 := mean (selectRows y_pred sensitive g1)
      if rate_0 = 0 then (if rate_1 = 0 then .ok (.val 0) else .ok .inf)
      else .ok (.val (rate_1 / rate_0))
  | _ => .error cardinalityError

/-- `average_odds_difference` of `src/metrics.py`:
`(abs(tpr_diff) + abs(fpr_diff)) / 2`. -/
def average_odds_difference (y_true y_pred sensitive : List ℚ) : Except String ℚ :=
  match uniqueSorted sensitive with
  | [g0, g1] =>
      .ok ((|_tpr_difference y_true y_pred sensitive g0 g1| +
            |_fpr_difference y_true y_pred sensitive g0 g1|) / 2)
  | _ => .error cardinalityError

/-- IEEE-float reciprocal on the disparate-impact value domain:
the reciprocal of 0.0 is +inf, of +inf is 0.0, otherwise the rational
reciprocal; used to state the swap/reciprocal law of the spec. -/
def recipDI : DIValue → DIValue
  | .val q => if q = 0 then .inf else .val q⁻¹
  | .inf => .val 0

/-- Relabelling of a sensitive column exchanging the two group labels
`a` and `b`; other values stay fixed. -/
def swapLabels (a b : ℚ) (s : List ℚ) : List ℚ :=
  s.map fun x => if x = a then b else if x = b then a else x

/-- `FAIRNESS_THRESHOLDS` of `src/metrics.py` as an association list. -/
def FAIRNESS_THRESHOLDS : List (String × ℚ) :=
  [("demographic_parity", 1/10), ("equalized_odds", 1/10),
   ("equal_opportunity", 1/10), ("disparate_impact", 4/5), ("average_odds", 1/10)]

/-- `is_fair` of `src/metrics.py`: threshold lookup with default 0.1, the
symmetric band `threshold ≤ v ≤ 2 - threshold` for the disparate-impact
ratio, and `abs v ≤ threshold` for the difference metrics. -/
def is_fair (metric_value : ℚ) (metric_name : String) : Bool :=
  let threshold := (FAIRNESS_THRESHOLDS.lookup metric_name).getD (1/10)
  if metric_name = "disparate_impact" then
    decide (threshold ≤ metric_value ∧ metric_value ≤ 2 - threshold)
  else
    decide (|metric_value| ≤ threshold)

/-- A raised Python exception of `fairness_detector.py`: the explicit
`ValueError`s with their messages, or the `KeyError` pandas raises on a
missing (or `None`) column label. -/
inductive PyErr where
  | valueError : String → PyErr
  | keyError : PyErr
deriving DecidableEq

/-- A pandas DataFrame restricted to what the detector reads: named columns
of aligned numeric values. -/
structure DataFrame where
  cols : List (String × List ℚ)
deriving DecidableEq

/-- Column access `df[name]`: `KeyError` when the label is `None` or absent. -/
def getColumn (df : DataFrame) (name : Option String) : Except PyErr (List ℚ) :=
  match name with
  | none => .error .keyError
  | some n =>
      match df.cols.lookup n with
      | some v => .ok v
      | none => .error .keyError

/-- A metric call inside the detector: its `ValueError` propagates. -/
def liftMetric {α : Type} : Except String α → Except PyErr α
  | .ok v => .ok v
  | .error m => .error (.valueError m)

/-- The `FairnessDetector` configuration state: sensitive-attribute names,
optional target column, bias threshold, verbosity and the loaded data. -/
structure FairnessDetector where
  sensitive_attributes : List String
  target : Option String
  threshold : ℚ
  verbose : Bool
  _data : Option DataFrame
deriving DecidableEq

/-- The `BiasDetectionResult` dataclass of `fairness_detector.py`, the
metrics dict kept as an insertion-ordered association list. -/
structure BiasDetectionResult where
  has_bias : Bool
  bias_type : Option String
  metrics : List (String × ℚ)
  sensitive_attrs : List String
  recommendations : List String
deriving DecidableEq

/-- The four fixed recommendation strings `detect_bias` attaches on bias. -/
def biasRecommendations : List String :=
  ["Review data collection process for potential bias",
   "Consider bias mitigation techniques (reweighting, resampling)",
   "Evaluate model fairness across all protected groups",
   "Consult fairness documentation for mitigation strategies"]

/-- Python `max(items, key=lambda x: abs(x[1]))`: the first element of
maximal absolute value wins ties. -/
def pyMaxByAbs (l : List (String × ℚ)) : Option (String × ℚ) :=
  match l with
  | [] => none
  | x :: xs => some (xs.foldl (fun best y => if |best.2| < |y.2| then y else best) x)

/-- The verdict construction at the tail of `detect_bias` (source lines
276-298): the results dict, the any-threshold test, the largest-magnitude
metric as `bias_type` and the fixed recommendations, both only on bias. -/
def biasVerdict (threshold : ℚ) (sensitive_attrs : List String)
    (dp eo eop : ℚ) : BiasDetectionResult :=
  let results := [("demographic_parity", dp), ("equalized_odds", eo),
                  ("equal_opportunity", eop)]
  let has_bias := results.any fun p => decide (threshold < |p.2|)
  { has_bias := has_bias,
    bias_type := if has_bias then (pyMaxByAbs results).map Prod.fst else none,
    metrics := results,
    sensitive_attrs := sensitive_attrs,
    recommendations := if has_bias then biasRecommendations else [] }

/-- `FairnessDetector.detect_bias`, in the evaluation order of the source:
data resolution, the two configuration guards, prediction resolution,
sensitive-column lookup, demographic parity, the `df[self.target]` lookup
for `y_true`, equalized odds, equal opportunity, then the verdict. -/
def detect_bias (det : FairnessDetector) (data : Option DataFrame)
    (y_pred : Option (List ℚ)) : Except PyErr BiasDetectionResult :=
  (match data, det._data with
   | some df, _ => Except.ok df
   | none, some df => Except.ok df
   | none, none =>
       Except.error (PyErr.valueError
         "No data provided. Call load_data() or pass data parameter.")).bind fun df =>
  if det.sensitive_attributes = [] then
    Except.error (PyErr.valueError
      "No sensitive attributes set. Call set_sensitive_attributes().")
  else if det.target = none ∧ y_pred = none then
    Except.error (PyErr.valueError "No target set and no predictions provided.")
  else
    (match y_pred with
     | some p => Except.ok p
     | none => getColumn df det.target).bind fun y =>
    (getColumn df det.sensitive_attributes.head?).bind fun scol =>
    (liftMetric (demographic_parity_difference y scol)).bind fun dp =>
    (getColumn df det.target).bind fun y_true =>
    (liftMetric (equalized_odds_difference y_true y scol)).bind fun eo =>
    (liftMetric (equal_opportunity_difference y_true y scol)).bind fun eop =>
    Except.ok (biasVerdict det.threshold det.sensitive_attributes dp eo eop)

/-- Python `max` (resp. `min`) of a nonempty collection, as a fold from the
first element. -/
def pyMax (x : ℚ) (l : List ℚ) : ℚ := l.foldl max x

/-- See `pyMax`. -/
def pyMin (x : ℚ) (l : List ℚ) : ℚ := l.foldl min x

/-- The dict returned by `FairnessDetector.check_eeoc_compliance`, selection
rates kept as an association list in the sorted group order. -/
structure EEOCResult where
  compliant : Bool
  impact_ratio : ℚ
  threshold : ℚ
  selection_rates : List (ℚ × ℚ)
  max_rate : ℚ
  min_rate : ℚ
  failing_groups : List ℚ
  regulation : String
deriving DecidableEq

/-- The computation at the tail of `check_eeoc_compliance` (source lines
338-378): per-group selection rates over all distinct groups, the 80%-rule
impact ratio with the vacuous `max_rate == 0` branch, and the failing groups
computed only when non-compliant. Python's `max()` on the empty rate
collection raises, the error branch here. -/
def eeocFromColumns (target groups : List ℚ) : Except PyErr EEOCResult :=
  let unique_groups := uniqueSorted groups
  let selection_rates := unique_groups.map fun g => (g, mean (selectRows target groups g))
  match selection_rates with
  | [] => Except.error (PyErr.valueError "max() arg is an empty sequence")
  | r :: rs =>
    let max_rate := pyMax r.2 (rs.map Prod.snd)
    let min_rate := pyMin r.2 (rs.map Prod.snd)
    let impact_ratio := if max_rate = 0 then 1 else min_rate / max_rate
    let compliant := decide ((4 : ℚ)/5 ≤ impact_ratio)
    let failing_groups :=
      if compliant then []
      else ((r :: rs).filter fun (p : ℚ × ℚ) => decide (p.2 < 4/5 * max_rate)).map Prod.fst
    Except.ok { compliant := compliant, impact_ratio := impact_ratio,
                threshold := 4/5, selection_rates := r :: rs,
                max_rate := max_rate, min_rate := min_rate,
                failing_groups := failing_groups,
                regulation := "EEOC 80% Rule" }

/-- `FairnessDetector.check_eeoc_compliance`: data resolution, the two
configuration guards, the target and group column extraction, then
`eeocFromColumns`. -/
def check_eeoc_compliance (det : FairnessDetector) (data : Option DataFrame) :
    Except PyErr EEOCResult :=
  (match data, det._data with
   | some df, _ => Except.ok df
   | none, some df => Except.ok df
   | none, none =>
       Except.error (PyErr.valueError
         "No data provided. Call load_data() or pass data parameter.")).bind fun df =>
  if det.sensitive_attributes = [] then
    Except.error (PyErr.valueError
      "No sensitive attributes set. Call set_sensitive_attributes().")
  else if det.target = none then
    Except.error (PyErr.valueError "No target set. Call set_target().")
  else
    (getColumn df det.target).bind fun target =>
    (getColumn df det.sensitive_attributes.head?).bind fun groups =>
    eeocFromColumns target groups

/-- Whether a detector call raised a `ValueError` (as opposed to succeeding
or raising a `KeyError`). -/
def isValueError {α : Type} : Except PyErr α → Bool
  | .error (.valueError _) => true
  | _ => false

/-- Whether a detector call succeeded (returned rather than raised). -/
def didSucceed {α : Type} : Except PyErr α → Bool
  | .ok _ => true
  | .error _ => false

/-- A concrete four-row dataset: target column `t`, sensitive column `g`
with two groups 0 and 1 (selection rates 1 and 1/2). -/
def dfW : DataFrame := ⟨[("t", [1, 1, 1, 0]), ("g", [0, 0, 1, 1])]⟩

/-- A detector configured with sensitive attribute `g`, target `t`,
threshold 1/10. -/
def detW : FairnessDetector := ⟨["g"], some "t", 1/10, false, none⟩

/-- A detector with an empty sensitive-attribute list. -/
def detWempty : FairnessDetector := ⟨[], some "t", 1/10, false, none⟩

/-- A detector with sensitive attribute `g` but no target set. -/
def detWnoTarget : FairnessDetector := ⟨["g"], none, 1/10, false, none⟩

theorem uniqueSorted_cons (x : ℚ) (xs : List ℚ) :
    uniqueSorted (x :: xs) = insertSortedNoDup x (uniqueSorted xs) := rfl

theorem mem_insertSortedNoDup {a x : ℚ} {l : List ℚ} :
    a ∈ insertSortedNoDup x l ↔ a = x ∨ a ∈ l := by
  induction l with
  | nil => simp [insertSortedNoDup]
  | cons y ys ih =>
    rw [insertSortedNoDup]
    by_cases h1 : x < y
    · simp only [if_pos h1, List.mem_cons]
    · by_cases h2 : x = y
      · subst h2
        rw [if_neg h1, if_pos rfl]
        simp only [List.mem_cons]
        tauto
      · simp only [if_neg h1, if_neg h2, List.mem_cons, ih]
        tauto

theorem mem_uniqueSorted {a : ℚ} {s : List ℚ} : a ∈ uniqueSorted s ↔ a ∈ s := by
  induction s with
  | nil => simp [uniqueSorted]
  | cons x xs ih =>
    rw [uniqueSorted_cons, mem_insertSortedNoDup, List.mem_cons, ih]

theorem sorted_insertSortedNoDup {x : ℚ} {l : List ℚ} (h : List.Sorted (· < ·) l) :
    List.Sorted (· < ·) (insertSortedNoDup x l) := by
  induction l with
  | nil => simp [insertSortedNoDup]
  | cons y ys ih =>
    rw [List.sorted_cons] at h
    obtain ⟨hy, hys⟩ := h
    rw [insertSortedNoDup]
    by_cases h1 : x < y
    · rw [if_pos h1, List.sorted_cons]
      refine ⟨fun b hb => ?_, List.sorted_cons.mpr ⟨hy, hys⟩⟩
      rcases List.mem_cons.mp hb with rfl | hb
      · exact h1
      · exact h1.trans (hy b hb)
    · by_cases h2 : x = y
      · rw [if_neg h1, if_pos h2, List.sorted_cons]
        exact ⟨hy, hys⟩
      · rw [if_neg h1, if_neg h2, List.sorted_cons]
        refine ⟨fun b hb => ?_, ih hys⟩
        rcases mem_insertSortedNoDup.mp hb with rfl | hb
        · exact lt_of_le_of_ne (not_lt.mp h1) (Ne.symm h2)
        · exact hy b hb

theorem sorted_uniqueSorted (s : List ℚ) : List.Sorted (· < ·) (uniqueSorted s) := by
  induction s with
  | nil => simp [uniqueSorted]
  | cons x xs ih => exact uniqueSorted_cons x xs ▸ sorted_insertSortedNoDup ih

theorem sorted_pair_eq {t : List ℚ} {g0 g1 : ℚ} (hs : List.Sorted (· < ·) t)
    (hmem : ∀ a, a ∈ t ↔ a = g0 ∨ a = g1) (h01 : g0 < g1) : t = [g0, g1] := by
  have h0t : g0 ∈ t := (hmem g0).mpr (Or.inl rfl)
  have h1t : g1 ∈ t := (hmem g1).mpr (Or.inr rfl)
  cases t with
  | nil => simp at h0t
  | cons a t' =>
    cases t' with
    | nil =>
      simp only [List.mem_singleton] at h0t h1t
      rw [h0t, h1t] at h01
      exact absurd h01 (lt_irrefl a)
    | cons b t'' =>
      rw [List.sorted_cons] at hs
      obtain ⟨ha, hs'⟩ := hs
      rw [List.sorted_cons] at hs'
      obtain ⟨hb, _⟩ := hs'
      have hab : a < b := ha b (List.mem_cons_self b t'')
      have ha0 : a = g0 := by
        rcases (hmem a).mp (List.mem_cons_self a _) with rfl | rfl
        · rfl
        · exfalso
          rcases List.mem_cons.mp h0t with h | h
          · rw [h] at h01; exact lt_irrefl a h01
          · exact lt_asymm h01 (ha g0 h)
      subst ha0
      have hb1 : b = g1 := by
        rcases (hmem b).mp (List.mem_cons.mpr (Or.inr (List.mem_cons_self b t''))) with
          rfl | rfl
        · exact absurd hab (lt_irrefl _)
        · rfl
      subst hb1
      have ht : t'' = [] := by
        by_contra hne
        obtain ⟨c, hc⟩ := List.exists_mem_of_ne_nil t'' hne
        have hbc : b < c := hb c hc
        rcases (hmem c).mp (by simp [hc]) with rfl | rfl
        · exact lt_irrefl c (h01.trans hbc)
        · exact lt_irrefl c hbc
      rw [ht]

theorem uniqueSorted_pair {s : List ℚ} {g0 g1 : ℚ} (h01 : g0 < g1)
    (hsub : ∀ x ∈ s, x = g0 ∨ x = g1) (h0 : g0 ∈ s) (h1 : g1 ∈ s) :
    uniqueSorted s = [g0, g1] := by
  refine sorted_pair_eq (sorted_uniqueSorted s) (fun a => ?_) h01
  rw [mem_uniqueSorted]
  constructor
  · exact hsub a
  · rintro (rfl | rfl)
    exacts [h0, h1]

theorem nodup_uniqueSorted (s : List ℚ) : (uniqueSorted s).Nodup :=
  (sorted_uniqueSorted s).nodup

theorem length_uniqueSorted (s : List ℚ) : (uniqueSorted s).length = s.toFinset.card := by
  rw [← List.toFinset_card_of_nodup (nodup_uniqueSorted s)]
  congr 1
  ext a
  simp only [List.mem_toFinset, mem_uniqueSorted]

theorem getColumn_some {df : DataFrame} {n : String} {v : List ℚ}
    (h : df.cols.lookup n = some v) : getColumn df (some n) = .ok v := by
  simp [getColumn, h]

/-- Claim C3: on aligned sequences whose sensitive attribute takes exactly the
two distinct values `g0 < g1` (so `g0` sorts before `g1`),
`demographic_parity_difference` returns the mean of `y_pred` over the rows of
group `g1` minus the mean over the rows of group `g0`; the sign is fixed by
the sort order of the two values alone. -/
theorem demographic_parity_difference_two_groups
    (y_pred sensitive : List ℚ) (g0 g1 : ℚ)
    (hlen : y_pred.length = sensitive.length)
    (h01 : g0 < g1)
    (hsub : ∀ x ∈ sensitive, x = g0 ∨ x = g1)
    (h0 : g0 ∈ sensitive) (h1 : g1 ∈ sensitive) :
    demographic_parity_difference y_pred sensitive =
      .ok (mean (selectRows y_pred sensitive g1) - mean (selectRows y_pred sensitive g0)) := by
  simp only [demographic_parity_difference, uniqueSorted_pair h01 hsub h0 h1]

theorem demographic_parity_difference_witness :
    demographic_parity_difference [1, 0, 1, 1, 0] [0, 1, 0, 1, 0] =
      .ok (mean (selectRows [1, 0, 1, 1, 0] [0, 1, 0, 1, 0] 1) -
           mean (selectRows [1, 0, 1, 1, 0] [0, 1, 0, 1, 0] 0)) :=
  demographic_parity_difference_two_groups _ _ 0 1 rfl (by norm_num)
    (by intro x hx; simp at hx; tauto) (by simp) (by simp)

/-- Claim C4: on aligned sequences with exactly two distinct sensitive values
`g0 < g1`, `equalized_odds_difference` returns the maximum of the absolute
TPR and FPR differences, where each group rate is the mean of `y_pred` over
the group rows with the matching ground truth and is defined as 0 when that
row set is empty. -/
theorem equalized_odds_difference_two_groups
    (y_true y_pred sensitive : List ℚ) (g0 g1 : ℚ)
    (hlen1 : y_true.length = sensitive.length)
    (hlen2 : y_pred.length = sensitive.length)
    (h01 : g0 < g1)
    (hsub : ∀ x ∈ sensitive, x = g0 ∨ x = g1)
    (h0 : g0 ∈ sensitive) (h1 : g1 ∈ sensitive) :
    equalized_odds_difference y_true y_pred sensitive =
      .ok (max |_tpr_difference y_true y_pred sensitive g0 g1|
               |_fpr_difference y_true y_pred sensitive g0 g1|) ∧
    _tpr_difference y_true y_pred sensitive g0 g1 =
      (if selectRows2 y_pred y_true sensitive 1 g1 = [] then 0
       else mean (selectRows2 y_pred y_true sensitive 1 g1)) -
      (if selectRows2 y_pred y_true sensitive 1 g0 = [] then 0
       else mean (selectRows2 y_pred y_true sensitive 1 g0)) ∧
    _fpr_difference y_true y_pred sensitive g0 g1 =
      (if selectRows2 y_pred y_true sensitive 0 g1 = [] then 0
       else mean (selectRows2 y_pred y_true sensitive 0 g1)) -
      (if selectRows2 y_pred y_true sensitive 0 g0 = [] then 0
       else mean (selectRows2 y_pred y_true sensitive 0 g0)) := by
  refine ⟨?_, rfl, rfl⟩
  simp only [equalized_odds_difference, uniqueSorted_pair h01 hsub h0 h1]

theorem equalized_odds_difference_witness :
    equalized_odds_difference [1, 0, 1, 0] [1, 0, 0, 1] [0, 0, 1, 1] =
      .ok (max |_tpr_difference [1, 0, 1, 0] [1, 0, 0, 1] [0, 0, 1, 1] 0 1|
               |_fpr_difference [1, 0, 1, 0] [1, 0, 0, 1] [0, 0, 1, 1] 0 1|) ∧
    _tpr_difference [1, 0, 1, 0] [1, 0, 0, 1] [0, 0, 1, 1] 0 1 =
      (if selectRows2 [1, 0, 0, 1] [1, 0, 1, 0] [0, 0, 1, 1] 1 1 = [] then 0
       else mean (selectRows2 [1, 0, 0, 1] [1, 0, 1, 0] [0, 0, 1, 1] 1 1)) -
      (if selectRows2 [1, 0, 0, 1] [1, 0, 1, 0] [0, 0, 1, 1] 1 0 = [] then 0
       else mean (selectRows2 [1, 0, 0, 1] [1, 0, 1, 0] [0, 0, 1, 1] 1 0)) ∧
    _fpr_difference [1, 0, 1, 0] [1, 0, 0, 1] [0, 0, 1, 1] 0 1 =
      (if selectRows2 [1, 0, 0, 1] [1, 0, 1, 0] [0, 0, 1, 1] 0 1 = [] then 0
       else mean (selectRows2 [1, 0, 0, 1] [1, 0, 1, 0] [0, 0, 1, 1] 0 1)) -
      (if selectRows2 [1, 0, 0, 1] [1, 0, 1, 0] [0, 0, 1, 1] 0 0 = [] then 0
       else mean (selectRows2 [1, 0, 0, 1] [1, 0, 1, 0] [0, 0, 1, 1] 0 0)) :=
  equalized_odds_difference_two_groups _ _ _ 0 1 rfl rfl (by norm_num)
    (by intro x hx; simp at hx; tauto) (by simp) (by simp)

/-- Claim C5: on aligned sequences with exactly two distinct sensitive values
`g0 < g1`, `disparate_impact_ratio` returns rate(`g1`) / rate(`g0`), with the
degenerate zero-denominator branches of the source (0.0 when both rates are 0,
+inf when only rate(`g0`) is 0) and never an error. -/
theorem disparate_impact_ratio_two_groups
    (y_pred sensitive : List ℚ) (g0 g1 : ℚ)
    (hlen : y_pred.length = sensitive.length)
    (h01 : g0 < g1)
    (hsub : ∀ x ∈ sensitive, x = g0 ∨ x = g1)
    (h0 : g0 ∈ sensitive) (h1 : g1 ∈ sensitive) :
    disparate_impact_ratio y_pred sensitive =
      .ok (if mean (selectRows y_pred sensitive g0) = 0 then
             (if mean (selectRows y_pred sensitive g1) = 0 then DIValue.val 0
              else DIValue.inf)
           else DIValue.val (mean (selectRows y_pred sensitive g1) /
                             mean (selectRows y_pred sensitive g0))) := by
  simp only [disparate_impact_ratio, uniqueSorted_pair h01 hsub h0 h1]
  split_ifs <;> rfl

theorem disparate_impact_ratio_witness :
    disparate_impact_ratio [1, 0, 1, 1, 0] [0, 1, 0, 1, 0] =
      .ok (if mean (selectRows [1, 0, 1, 1, 0] [0, 1, 0, 1, 0] 0) = 0 then
             (if mean (selectRows [1, 0, 1, 1, 0] [0, 1, 0, 1, 0] 1) = 0 then DIValue.val 0
              else DIValue.inf)
           else DIValue.val (mean (selectRows [1, 0, 1, 1, 0] [0, 1, 0, 1, 0] 1) /
                             mean (selectRows [1, 0, 1, 1, 0] [0, 1, 0, 1, 0] 0))) :=
  disparate_impact_ratio_two_groups _ _ 0 1 rfl (by norm_num)
    (by intro x hx; simp at hx; tauto) (by simp) (by simp)

/-- Claim C7: `is_fair` classifies a demographic-parity value as fair exactly
when its absolute value is at most 0.1 (the boundary 0.1 included), and a
disparate-impact value as fair exactly when it lies in the closed band
[0.8, 1.2] (both boundaries included). -/
theorem is_fair_thresholds (x : ℚ) :
    (is_fair x "demographic_parity" = true ↔ |x| ≤ 1/10) ∧
    (is_fair x "disparate_impact" = true ↔ (4/5 ≤ x ∧ x ≤ 6/5)) ∧
    is_fair (1/10) "demographic_parity" = true ∧
    is_fair (4/5) "disparate_impact" = true ∧
    is_fair (6/5) "disparate_impact" = true := by
  have hdp : ∀ y : ℚ, is_fair y "demographic_parity" = true ↔ |y| ≤ 1/10 := by
    intro y
    simp only [is_fair]
    rw [show FAIRNESS_THRESHOLDS.lookup "demographic_parity" = some (1/10) from rfl]
    simp
  have hdi : ∀ y : ℚ, is_fair y "disparate_impact" = true ↔ (4/5 ≤ y ∧ y ≤ 6/5) := by
    intro y
    simp only [is_fair]
    rw [show FAIRNESS_THRESHOLDS.lookup "disparate_impact" = some (4/5) from rfl]
    simp
    norm_num
  refine ⟨hdp x, hdi x, ?_, ?_, ?_⟩
  · rw [hdp]; norm_num [abs_le]
  · rw [hdi]; norm_num
  · rw [hdi]; norm_num

/-- Claim C8: each of the five metric functions raises the cardinality
`ValueError` exactly when the sensitive attribute has a number of distinct
values other than 2, on aligned input sequences. -/
theorem metrics_cardinality_error_iff
    (y_true y_pred sensitive : List ℚ)
    (hlen1 : y_true.length = sensitive.length)
    (hlen2 : y_pred.length = sensitive.length) :
    ((demographic_parity_difference y_pred sensitive = .error cardinalityError) ↔
      sensitive.toFinset.card ≠ 2) ∧
    ((equalized_odds_difference y_true y_pred sensitive = .error cardinalityError) ↔
      sensitive.toFinset.card ≠ 2) ∧
    ((equal_opportunity_difference y_true y_pred sensitive = .error cardinalityError) ↔
      sensitive.toFinset.card ≠ 2) ∧
    ((disparate_impact_ratio y_pred sensitive = .error cardinalityError) ↔
      sensitive.toFinset.card ≠ 2) ∧
    ((average_odds_difference y_true y_pred sensitive = .error cardinalityError) ↔
      sensitive.toFinset.card ≠ 2) := by
  rw [← length_uniqueSorted]
  rcases h : uniqueSorted sensitive with _ | ⟨a, _ | ⟨b, _ | ⟨c, t⟩⟩⟩
  · simp [demographic_parity_difference, equalized_odds_difference,
      equal_opportunity_difference, disparate_impact_ratio,
      average_odds_difference, h]
  · simp [demographic_parity_difference, equalized_odds_difference,
      equal_opportunity_difference, disparate_impact_ratio,
      average_odds_difference, h]
  · refine ⟨?_, ?_, ?_, ?_, ?_⟩
    · simp [demographic_parity_difference, h]
    · simp [equalized_odds_difference, h]
    · simp [equal_opportunity_difference, h]
    · simp only [disparate_impact_ratio, h]
      constructor
      · intro hcon
        split_ifs at hcon <;> simp_all
      · intro hcon
        simp at hcon
    · simp [average_odds_difference, h]
  · simp [demographic_parity_difference, equalized_odds_difference,
      equal_opportunity_difference, disparate_impact_ratio,
      average_odds_difference, h]

theorem metrics_cardinality_error_witness :
    ((demographic_parity_difference [1, 1] [0, 0] = .error cardinalityError) ↔
      ([0, 0] : List ℚ).toFinset.card ≠ 2) ∧
    ((equalized_odds_difference [1, 0] [1, 1] [0, 0] = .error cardinalityError) ↔
      ([0, 0] : List ℚ).toFinset.card ≠ 2) ∧
    ((equal_opportunity_difference [1, 0] [1, 1] [0, 0] = .error cardinalityError) ↔
      ([0, 0] : List ℚ).toFinset.card ≠ 2) ∧
    ((disparate_impact_ratio [1, 1] [0, 0] = .error cardinalityError) ↔
      ([0, 0] : List ℚ).toFinset.card ≠ 2) ∧
    ((average_odds_difference [1, 0] [1, 1] [0, 0] = .error cardinalityError) ↔
      ([0, 0] : List ℚ).toFinset.card ≠ 2) :=
  metrics_cardinality_error_iff [1, 0] [1, 1] [0, 0] rfl rfl

/-- Claim C10: whenever both metrics are defined (the sensitive attribute has
exactly two groups so that both calls return a value), the equalized-odds
difference is at least the absolute value of the equal-opportunity
difference, since the latter is the TPR component inside the former's max. -/
theorem equalized_odds_ge_abs_equal_opportunity
    (y_true y_pred sensitive : List ℚ) (a b : ℚ)
    (heo : equalized_odds_difference y_true y_pred sensitive = .ok a)
    (heop : equal_opportunity_difference y_true y_pred sensitive = .ok b) :
    |b| ≤ a := by
  rcases h : uniqueSorted sensitive with _ | ⟨g0, _ | ⟨g1, _ | ⟨c, t⟩⟩⟩ <;>
    simp only [equalized_odds_difference, equal_opportunity_difference, h,
      Except.ok.injEq] at heo heop
  · exact absurd heo (by simp)
  · exact absurd heo (by simp)
  · rw [← heo, ← heop]
    exact le_max_left _ _
  · exact absurd heo (by simp)

theorem equalized_odds_ge_abs_equal_opportunity_witness : |(-1 : ℚ)| ≤ 1 :=
  equalized_odds_ge_abs_equal_opportunity [1, 0] [1, 0] [0, 1] 1 (-1)
    (by norm_num [equalized_odds_difference, uniqueSorted, insertSortedNoDup,
      _tpr_difference, _fpr_difference, selectRows2, mean])
    (by norm_num [equal_opportunity_difference, uniqueSorted, insertSortedNoDup,
      _tpr_difference, selectRows2, mean])

theorem swapLabels_cons (a b x : ℚ) (xs : List ℚ) :
    swapLabels a b (x :: xs) =
      (if x = a then b else if x = b then a else x) :: swapLabels a b xs := rfl

theorem swap_eq_left {a b x : ℚ} (hab : a ≠ b) :
    ((if x = a then b else if x = b then a else x) = a) ↔ x = b := by
  by_cases hxa : x = a
  · by_cases hxb : x = b
    · exact absurd (hxa.symm.trans hxb) hab
    · simp [hxa, hab, Ne.symm hab]
  · by_cases hxb : x = b
    · simp [hxa, hxb]
    · simp [hxa, hxb]

theorem swap_eq_right {a b x : ℚ} (hab : a ≠ b) :
    ((if x = a then b else if x = b then a else x) = b) ↔ x = a := by
  by_cases hxa : x = a
  · simp [hxa]
  · by_cases hxb : x = b
    · simp [hxa, hxb, hab, Ne.symm hab]
    · simp [hxa, hxb]

theorem selectRows_swapLabels (y s : List ℚ) (a b : ℚ) (hab : a ≠ b) :
    selectRows y (swapLabels a b s) a = selectRows y s b ∧
    selectRows y (swapLabels a b s) b = selectRows y s a := by
  induction s generalizing y with
  | nil => cases y <;> simp [swapLabels, selectRows]
  | cons x xs ih =>
    cases y with
    | nil => simp [selectRows]
    | cons p ps =>
      obtain ⟨ih1, ih2⟩ := ih ps
      rw [swapLabels_cons]
      constructor
      · simp only [selectRows]
        by_cases hxb : x = b
        · rw [if_pos ((swap_eq_left hab).mpr hxb), if_pos hxb, ih1]
        · rw [if_neg (fun hc => hxb ((swap_eq_left hab).mp hc)), if_neg hxb]
          exact ih1
      · simp only [selectRows]
        by_cases hxa : x = a
        · rw [if_pos ((swap_eq_right hab).mpr hxa), if_pos hxa, ih2]
        · rw [if_neg (fun hc => hxa ((swap_eq_right hab).mp hc)), if_neg hxa]
          exact ih2

theorem uniqueSorted_swapLabels {s : List ℚ} {g0 g1 : ℚ} (h01 : g0 < g1)
    (hsub : ∀ x ∈ s, x = g0 ∨ x = g1) (h0 : g0 ∈ s) (h1 : g1 ∈ s) :
    uniqueSorted (swapLabels g0 g1 s) = [g0, g1] := by
  have hab : g0 ≠ g1 := ne_of_lt h01
  apply uniqueSorted_pair h01
  · intro x hx
    rw [swapLabels, List.mem_map] at hx
    obtain ⟨z, hz, rfl⟩ := hx
    rcases hsub z hz with rfl | rfl
    · right; simp
    · left; simp [Ne.symm hab]
  · rw [swapLabels, List.mem_map]
    refine ⟨g1, h1, ?_⟩
    simp [Ne.symm hab]
  · rw [swapLabels, List.mem_map]
    refine ⟨g0, h0, ?_⟩
    simp

/-- Claim C6: relabelling the data so that the two groups swap roles turns
the disparate impact ratio into its IEEE-style reciprocal (a finite nonzero
ratio into its inverse, 0.0 into +inf, +inf into 0.0), in every case except
the degenerate branch where both group rates are 0. -/
theorem disparate_impact_ratio_swap_reciprocal
    (y_pred sensitive : List ℚ) (g0 g1 : ℚ) (v : DIValue)
    (hlen : y_pred.length = sensitive.length)
    (h01 : g0 < g1)
    (hsub : ∀ x ∈ sensitive, x = g0 ∨ x = g1)
    (h0 : g0 ∈ sensitive) (h1 : g1 ∈ sensitive)
    (hnz : ¬(mean (selectRows y_pred sensitive g0) = 0 ∧
             mean (selectRows y_pred sensitive g1) = 0))
    (hv : disparate_impact_ratio y_pred sensitive = .ok v) :
    disparate_impact_ratio y_pred (swapLabels g0 g1 sensitive) = .ok (recipDI v) := by
  obtain ⟨hsw0, hsw1⟩ := selectRows_swapLabels y_pred sensitive g0 g1 (ne_of_lt h01)
  simp only [disparate_impact_ratio, uniqueSorted_pair h01 hsub h0 h1] at hv
  simp only [disparate_impact_ratio, uniqueSorted_swapLabels h01 hsub h0 h1,
    hsw0, hsw1]
  by_cases hz0 : mean (selectRows y_pred sensitive g0) = 0
  · by_cases hz1 : mean (selectRows y_pred sensitive g1) = 0
    · exact absurd ⟨hz0, hz1⟩ hnz
    · rw [if_pos hz0, if_neg hz1, Except.ok.injEq] at hv
      subst hv
      rw [if_neg hz1]
      simp only [recipDI]
      rw [hz0, zero_div]
  · by_cases hz1 : mean (selectRows y_pred sensitive g1) = 0
    · rw [if_neg hz0, Except.ok.injEq] at hv
      subst hv
      rw [if_pos hz1, if_neg hz0]
      simp only [recipDI]
      rw [hz1, zero_div, if_pos rfl]
    · rw [if_neg hz0, Except.ok.injEq] at hv
      subst hv
      rw [if_neg hz1]
      simp only [recipDI]
      rw [if_neg (div_ne_zero hz1 hz0), inv_div]

theorem disparate_impact_ratio_swap_witness :
    disparate_impact_ratio [1, 1] (swapLabels 0 1 [0, 1]) =
      .ok (recipDI (DIValue.val 1)) :=
  disparate_impact_ratio_swap_reciprocal [1, 1] [0, 1] 0 1 (DIValue.val 1) rfl
    (by norm_num) (by intro x hx; simp at hx; tauto) (by simp) (by simp)
    (by norm_num [mean, selectRows])
    (by norm_num [disparate_impact_ratio, uniqueSorted, insertSortedNoDup,
      selectRows, mean])

theorem pyMax_cons (x z : ℚ) (zs : List ℚ) :
    pyMax x (z :: zs) = pyMax (max x z) zs := rfl

theorem pyMin_cons (x z : ℚ) (zs : List ℚ) :
    pyMin x (z :: zs) = pyMin (min x z) zs := rfl

theorem pyMax_spec (l : List ℚ) (x : ℚ) :
    x ≤ pyMax x l ∧ ∀ y ∈ l, y ≤ pyMax x l := by
  induction l generalizing x with
  | nil => simp [pyMax]
  | cons z zs ih =>
    rw [pyMax_cons]
    obtain ⟨h1, h2⟩ := ih (max x z)
    refine ⟨le_trans (le_max_left x z) h1, ?_⟩
    intro y hy
    rcases List.mem_cons.mp hy with rfl | hy
    · exact le_trans (le_max_right x y) h1
    · exact h2 y hy

theorem pyMax_mem (l : List ℚ) (x : ℚ) : pyMax x l = x ∨ pyMax x l ∈ l := by
  induction l generalizing x with
  | nil => left; rfl
  | cons z zs ih =>
    rw [pyMax_cons]
    rcases ih (max x z) with h | h
    · rw [h]
      rcases max_choice x z with hm | hm
      · left; exact hm
      · right; rw [hm]; exact List.mem_cons_self z zs
    · right; exact List.mem_cons_of_mem z h

theorem pyMin_spec (l : List ℚ) (x : ℚ) :
    pyMin x l ≤ x ∧ ∀ y ∈ l, pyMin x l ≤ y := by
  induction l generalizing x with
  | nil => simp [pyMin]
  | cons z zs ih =>
    rw [pyMin_cons]
    obtain ⟨h1, h2⟩ := ih (min x z)
    refine ⟨le_trans h1 (min_le_left x z), ?_⟩
    intro y hy
    rcases List.mem_cons.mp hy with rfl | hy
    · exact le_trans h1 (min_le_right x y)
    · exact h2 y hy

theorem pyMin_mem (l : List ℚ) (x : ℚ) : pyMin x l = x ∨ pyMin x l ∈ l := by
  induction l generalizing x with
  | nil => left; rfl
  | cons z zs ih =>
    rw [pyMin_cons]
    rcases ih (min x z) with h | h
    · rw [h]
      rcases min_choice x z with hm | hm
      · left; exact hm
      · right; rw [hm]; exact List.mem_cons_self z zs
    · right; exact List.mem_cons_of_mem z h

theorem uniqueSorted_ne_nil {groups : List ℚ} (hne : groups ≠ []) :
    ∃ u us, uniqueSorted groups = u :: us := by
  rcases groups with _ | ⟨a, as⟩
  · exact absurd rfl hne
  · rcases hq : uniqueSorted (a :: as) with _ | ⟨u, us⟩
    · exfalso
      have ha : a ∈ uniqueSorted (a :: as) :=
        mem_uniqueSorted.mpr (List.mem_cons_self a as)
      rw [hq] at ha
      simp at ha
    · exact ⟨u, us, rfl⟩

theorem eeocRecord_failing (cp : Bool) (rts : List (ℚ × ℚ)) (mx : ℚ) :
    (cp = true →
      (if cp then []
       else (rts.filter fun (p : ℚ × ℚ) => decide (p.2 < 4/5 * mx)).map Prod.fst) = []) ∧
    (cp = false →
      ∀ g, (g ∈ (if cp then []
            else (rts.filter fun (p : ℚ × ℚ) => decide (p.2 < 4/5 * mx)).map Prod.fst) ↔
          ∃ p ∈ rts, p.1 = g ∧ p.2 < 4/5 * mx)) := by
  cases cp with
  | true => exact ⟨fun _ => rfl, fun h => absurd h (by simp)⟩
  | false =>
    refine ⟨fun h => absurd h (by simp), fun _ g => ?_⟩
    simp only [Bool.false_eq_true, if_false, List.mem_map, List.mem_filter,
      decide_eq_true_eq]
    constructor
    · rintro ⟨p, ⟨hp, hlt⟩, rfl⟩
      exact ⟨p, hp, rfl, hlt⟩
    · rintro ⟨p, hp, rfl, hlt⟩
      exact ⟨p, ⟨hp, hlt⟩, rfl⟩

theorem eeocFromColumns_spec (target groups : List ℚ) (hne : groups ≠ []) :
    ∃ res, eeocFromColumns target groups = Except.ok res ∧
      res.selection_rates =
        (uniqueSorted groups).map (fun g => (g, mean (selectRows target groups g))) ∧
      (∀ p ∈ res.selection_rates, p.2 ≤ res.max_rate) ∧
      res.max_rate ∈ res.selection_rates.map Prod.snd ∧
      (∀ p ∈ res.selection_rates, res.min_rate ≤ p.2) ∧
      res.min_rate ∈ res.selection_rates.map Prod.snd ∧
      res.impact_ratio = (if res.max_rate = 0 then 1 else res.min_rate / res.max_rate) ∧
      (res.compliant = true ↔ 4/5 ≤ res.impact_ratio) ∧
      (res.compliant = true → res.failing_groups = []) ∧
      (res.compliant = false →
        ∀ g, g ∈ res.failing_groups ↔
          ∃ p ∈ res.selection_rates, p.1 = g ∧ p.2 < 4/5 * res.max_rate) := by
  obtain ⟨u, us, hu⟩ := uniqueSorted_ne_nil hne
  rw [eeocFromColumns, hu, List.map_cons]
  refine ⟨_, rfl, by simp [hu], ?_, ?_, ?_, ?_, ?_, ?_, ?_, ?_⟩
  · intro p hp
    obtain ⟨h1, h2⟩ := pyMax_spec
      ((us.map fun g => (g, mean (selectRows target groups g))).map Prod.snd)
      (mean (selectRows target groups u))
    rcases List.mem_cons.mp hp with rfl | hp
    · exact h1
    · exact h2 _ (List.mem_map_of_mem Prod.snd hp)
  · rcases pyMax_mem
      ((us.map fun g => (g, mean (selectRows target groups g))).map Prod.snd)
      (mean (selectRows target groups u)) with h | h
    · exact List.mem_cons.mpr (Or.inl h)
    · exact List.mem_cons.mpr (Or.inr h)
  · intro p hp
    obtain ⟨h1, h2⟩ := pyMin_spec
      ((us.map fun g => (g, mean (selectRows target groups g))).map Prod.snd)
      (mean (selectRows target groups u))
    rcases List.mem_cons.mp hp with rfl | hp
    · exact h1
    · exact h2 _ (List.mem_map_of_mem Prod.snd hp)
  · rcases pyMin_mem
      ((us.map fun g => (g, mean (selectRows target groups g))).map Prod.snd)
      (mean (selectRows target groups u)) with h | h
    · exact List.mem_cons.mpr (Or.inl h)
    · exact List.mem_cons.mpr (Or.inr h)
  · rfl
  · exact decide_eq_true_iff
  · exact (eeocRecord_failing _ _ _).1
  · exact (eeocRecord_failing _ _ _).2

/-- Claim C2: with a dataset, target and sensitive attribute configured (any
number of distinct groups, nonempty column), `check_eeoc_compliance` computes
each group's selection rate as the mean of the target restricted to that
group, sets `impact_ratio = min_rate / max_rate` (1.0 when `max_rate = 0`),
is compliant exactly when the ratio is at least 0.8, and reports as failing
groups exactly those with rate strictly below 0.8 x `max_rate` — the empty
list whenever compliant. -/
theorem check_eeoc_compliance_spec
    (det : FairnessDetector) (df : DataFrame) (s0 : String) (rest : List String)
    (t : String) (tcol gcol : List ℚ)
    (hs : det.sensitive_attributes = s0 :: rest)
    (ht : det.target = some t)
    (htc : df.cols.lookup t = some tcol)
    (hsc : df.cols.lookup s0 = some gcol)
    (hlen : tcol.length = gcol.length)
    (hne : gcol ≠ []) :
    ∃ res, check_eeoc_compliance det (some df) = Except.ok res ∧
      res.selection_rates =
        (uniqueSorted gcol).map (fun g => (g, mean (selectRows tcol gcol g))) ∧
      (∀ p ∈ res.selection_rates, p.2 ≤ res.max_rate) ∧
      res.max_rate ∈ res.selection_rates.map Prod.snd ∧
      (∀ p ∈ res.selection_rates, res.min_rate ≤ p.2) ∧
      res.min_rate ∈ res.selection_rates.map Prod.snd ∧
      res.impact_ratio = (if res.max_rate = 0 then 1 else res.min_rate / res.max_rate) ∧
      (res.compliant = true ↔ 4/5 ≤ res.impact_ratio) ∧
      (res.compliant = true → res.failing_groups = []) ∧
      (res.compliant = false →
        ∀ g, g ∈ res.failing_groups ↔
          ∃ p ∈ res.selection_rates, p.1 = g ∧ p.2 < 4/5 * res.max_rate) := by
  have hred : check_eeoc_compliance det (some df) = eeocFromColumns tcol gcol := by
    simp [check_eeoc_compliance, hs, ht, getColumn_some htc, getColumn_some hsc,
      Except.bind]
  rw [hred]
  exact eeocFromColumns_spec tcol gcol hne

theorem check_eeoc_compliance_witness :
    didSucceed (check_eeoc_compliance detW (some dfW)) = true := by
  obtain ⟨res, hres, -⟩ := check_eeoc_compliance_spec detW dfW "g" [] "t"
    [1, 1, 1, 0] [0, 0, 1, 1] rfl rfl rfl rfl rfl (by simp)
  rw [hres]
  rfl

theorem pyMaxByAbs_three_fst (n1 n2 n3 : String) (v1 v2 v3 : ℚ)
    (h12 : n1 ≠ n2) (h13 : n1 ≠ n3) (h23 : n2 ≠ n3) :
    ((pyMaxByAbs [(n1, v1), (n2, v2), (n3, v3)]).map Prod.fst = some n1 ↔
      |v2| ≤ |v1| ∧ |v3| ≤ |v1|) ∧
    ((pyMaxByAbs [(n1, v1), (n2, v2), (n3, v3)]).map Prod.fst = some n2 ↔
      |v1| < |v2| ∧ |v3| ≤ |v2|) ∧
    ((pyMaxByAbs [(n1, v1), (n2, v2), (n3, v3)]).map Prod.fst = some n3 ↔
      |v1| < |v3| ∧ |v2| < |v3|) := by
  simp only [pyMaxByAbs, List.foldl_cons, List.foldl_nil]
  by_cases h1 : |v1| < |v2|
  · rw [if_pos h1]
    by_cases h2 : |v2| < |v3|
    · rw [if_pos h2]
      simp only [Option.map_some', Option.some.injEq]
      refine ⟨?_, ?_, ?_⟩
      · exact iff_of_false (Ne.symm h13) (fun hcon => absurd h1 (not_lt.mpr hcon.1))
      · exact iff_of_false (Ne.symm h23) (fun hcon => absurd h2 (not_lt.mpr hcon.2))
      · exact iff_of_true trivial ⟨h1.trans h2, h2⟩
    · rw [if_neg h2]
      simp only [Option.map_some', Option.some.injEq]
      refine ⟨?_, ?_, ?_⟩
      · exact iff_of_false (Ne.symm h12) (fun hcon => absurd h1 (not_lt.mpr hcon.1))
      · exact iff_of_true trivial ⟨h1, not_lt.mp h2⟩
      · exact iff_of_false h23 (fun hcon => h2 hcon.2)
  · rw [if_neg h1]
    by_cases h2 : |v1| < |v3|
    · rw [if_pos h2]
      simp only [Option.map_some', Option.some.injEq]
      refine ⟨?_, ?_, ?_⟩
      · exact iff_of_false (Ne.symm h13) (fun hcon => absurd h2 (not_lt.mpr hcon.2))
      · exact iff_of_false (Ne.symm h23) (fun hcon => h1 hcon.1)
      · exact iff_of_true trivial ⟨h2, lt_of_le_of_lt (not_lt.mp h1) h2⟩
    · rw [if_neg h2]
      simp only [Option.map_some', Option.some.injEq]
      refine ⟨?_, ?_, ?_⟩
      · exact iff_of_true trivial ⟨not_lt.mp h1, not_lt.mp h2⟩
      · exact iff_of_false h12 (fun hcon => h1 hcon.1)
      · exact iff_of_false h13 (fun hcon => h2 hcon.1)

theorem biasVerdict_spec (threshold : ℚ) (attrs : List String) (dp eo eop : ℚ) :
    (biasVerdict threshold attrs dp eo eop).metrics =
      [("demographic_parity", dp), ("equalized_odds", eo),
       ("equal_opportunity", eop)] ∧
    ((biasVerdict threshold attrs dp eo eop).has_bias = true ↔
      (threshold < |dp| ∨ threshold < |eo| ∨ threshold < |eop|)) ∧
    ((biasVerdict threshold attrs dp eo eop).has_bias = true →
      (((biasVerdict threshold attrs dp eo eop).bias_type =
          some "demographic_parity" ↔ |eo| ≤ |dp| ∧ |eop| ≤ |dp|) ∧
       ((biasVerdict threshold attrs dp eo eop).bias_type =
          some "equalized_odds" ↔ |dp| < |eo| ∧ |eop| ≤ |eo|) ∧
       ((biasVerdict threshold attrs dp eo eop).bias_type =
          some "equal_opportunity" ↔ |dp| < |eop| ∧ |eo| < |eop|) ∧
       (biasVerdict threshold attrs dp eo eop).recommendations =
          biasRecommendations ∧
       (biasVerdict threshold attrs dp eo eop).recommendations.length = 4)) ∧
    ((biasVerdict threshold attrs dp eo eop).has_bias = false →
      (biasVerdict threshold attrs dp eo eop).bias_type = none ∧
      (biasVerdict threshold attrs dp eo eop).recommendations = []) := by
  have hb : (biasVerdict threshold attrs dp eo eop).has_bias = true ↔
      (threshold < |dp| ∨ threshold < |eo| ∨ threshold < |eop|) := by
    simp [biasVerdict, List.any_cons, List.any_nil, Bool.or_eq_true,
      decide_eq_true_eq, or_assoc]
  refine ⟨rfl, hb, ?_, ?_⟩
  · intro h
    have h' : ([(("demographic_parity" : String), dp), ("equalized_odds", eo),
        ("equal_opportunity", eop)].any fun p => decide (threshold < |p.2|)) = true := h
    have hbt : (biasVerdict threshold attrs dp eo eop).bias_type =
        (pyMaxByAbs [("demographic_parity", dp), ("equalized_odds", eo),
                     ("equal_opportunity", eop)]).map Prod.fst := by
      simp [biasVerdict, h']
    have hrec : (biasVerdict threshold attrs dp eo eop).recommendations =
        biasRecommendations := by
      simp [biasVerdict, h']
    obtain ⟨i1, i2, i3⟩ := pyMaxByAbs_three_fst "demographic_parity"
      "equalized_odds" "equal_opportunity" dp eo eop
      (by decide) (by decide) (by decide)
    rw [hbt]
    refine ⟨i1, i2, i3, hrec, ?_⟩
    rw [hrec]
    rfl
  · intro h
    have h' : ([(("demographic_parity" : String), dp), ("equalized_odds", eo),
        ("equal_opportunity", eop)].any fun p => decide (threshold < |p.2|)) = false := h
    exact ⟨by simp [biasVerdict, h'], by simp [biasVerdict, h']⟩

theorem detect_bias_reduces
    (det : FairnessDetector) (df : DataFrame) (yopt : Option (List ℚ))
    (s0 : String) (rest : List String) (t : String) (scol tcol : List ℚ)
    (g0 g1 : ℚ)
    (hs : det.sensitive_attributes = s0 :: rest)
    (ht : det.target = some t)
    (hsc : df.cols.lookup s0 = some scol)
    (htc : df.cols.lookup t = some tcol)
    (hg : uniqueSorted scol = [g0, g1]) :
    detect_bias det (some df) yopt =
      Except.ok (biasVerdict det.threshold det.sensitive_attributes
        (mean (selectRows (yopt.getD tcol) scol g1) -
         mean (selectRows (yopt.getD tcol) scol g0))
        (max |_tpr_difference tcol (yopt.getD tcol) scol g0 g1|
             |_fpr_difference tcol (yopt.getD tcol) scol g0 g1|)
        (_tpr_difference tcol (yopt.getD tcol) scol g0 g1)) := by
  cases yopt with
  | none =>
    simp [detect_bias, hs, ht, getColumn_some htc, getColumn_some hsc, hg,
      demographic_parity_difference, equalized_odds_difference,
      equal_opportunity_difference, liftMetric, Except.bind, Option.getD]
  | some p =>
    simp [detect_bias, hs, ht, getColumn_some htc, getColumn_some hsc, hg,
      demographic_parity_difference, equalized_odds_difference,
      equal_opportunity_difference, liftMetric, Except.bind, Option.getD]

/-- Claim C1: when the configured first sensitive-attribute column has
exactly two distinct values, `detect_bias` returns a verdict whose metrics
dict holds demographic parity, equalized odds and equal opportunity computed
against that column, whose `has_bias` is true exactly when some metric
exceeds the threshold in absolute value; on bias, `bias_type` is the metric
of maximal absolute value with ties broken in the insertion order
demographic_parity, equalized_odds, equal_opportunity, and the
recommendations are the fixed four strings; without bias, `bias_type` is
`None` and the recommendations are empty. -/
theorem detect_bias_two_groups_spec
    (det : FairnessDetector) (df : DataFrame) (yopt : Option (List ℚ))
    (s0 : String) (rest : List String) (t : String) (scol tcol : List ℚ)
    (g0 g1 : ℚ)
    (hs : det.sensitive_attributes = s0 :: rest)
    (ht : det.target = some t)
    (hsc : df.cols.lookup s0 = some scol)
    (htc : df.cols.lookup t = some tcol)
    (hlen : tcol.length = scol.length)
    (h01 : g0 < g1)
    (hsub : ∀ x ∈ scol, x = g0 ∨ x = g1)
    (h0 : g0 ∈ scol) (h1 : g1 ∈ scol) :
    ∃ dp eo eop r, detect_bias det (some df) yopt = Except.ok r ∧
      demographic_parity_difference (yopt.getD tcol) scol = .ok dp ∧
      equalized_odds_difference tcol (yopt.getD tcol) scol = .ok eo ∧
      equal_opportunity_difference tcol (yopt.getD tcol) scol = .ok eop ∧
      r.metrics = [("demographic_parity", dp), ("equalized_odds", eo),
                   ("equal_opportunity", eop)] ∧
      (r.has_bias = true ↔
        (det.threshold < |dp| ∨ det.threshold < |eo| ∨ det.threshold < |eop|)) ∧
      (r.has_bias = true →
        ((r.bias_type = some "demographic_parity" ↔ |eo| ≤ |dp| ∧ |eop| ≤ |dp|) ∧
         (r.bias_type = some "equalized_odds" ↔ |dp| < |eo| ∧ |eop| ≤ |eo|) ∧
         (r.bias_type = some "equal_opportunity" ↔ |dp| < |eop| ∧ |eo| < |eop|) ∧
         r.recommendations = biasRecommendations ∧
         r.recommendations.length = 4)) ∧
      (r.has_bias = false → r.bias_type = none ∧ r.recommendations = []) := by
  have hg : uniqueSorted scol = [g0, g1] := uniqueSorted_pair h01 hsub h0 h1
  obtain ⟨m1, m2, m3, m4⟩ := biasVerdict_spec det.threshold det.sensitive_attributes
    (mean (selectRows (yopt.getD tcol) scol g1) -
     mean (selectRows (yopt.getD tcol) scol g0))
    (max |_tpr_difference tcol (yopt.getD tcol) scol g0 g1|
         |_fpr_difference tcol (yopt.getD tcol) scol g0 g1|)
    (_tpr_difference tcol (yopt.getD tcol) scol g0 g1)
  refine ⟨_, _, _, _,
    detect_bias_reduces det df yopt s0 rest t scol tcol g0 g1 hs ht hsc htc hg,
    ?_, ?_, ?_, m1, m2, m3, m4⟩
  · simp only [demographic_parity_difference, hg]
  · simp only [equalized_odds_difference, hg]
  · simp only [equal_opportunity_difference, hg]

theorem detect_bias_two_groups_witness :
    didSucceed (detect_bias detW (some dfW) none) = true := by
  obtain ⟨dp, eo, eop, r, hr, -⟩ := detect_bias_two_groups_spec detW dfW none
    "g" [] "t" [0, 0, 1, 1] [1, 1, 1, 0] 0 1 rfl rfl rfl rfl rfl
    (by norm_num) (by intro x hx; simp at hx; tauto) (by simp) (by simp)
  rw [hr]
  rfl

/-- Claim C9 counterexample: with the target unset but explicit predictions
supplied, `detect_bias` passes its configuration validation and fails with a
`KeyError` at the `df[self.target]` lookup for the equalized-odds ground
truth — not with the claimed immediate configuration `ValueError`. -/
theorem detect_bias_no_target_counterexample :
    detect_bias detWnoTarget (some dfW) (some [1, 0, 1, 1]) =
      Except.error PyErr.keyError ∧
    isValueError (detect_bias detWnoTarget (some dfW) (some [1, 0, 1, 1])) = false := by
  have hu : uniqueSorted [0, 0, 1, 1] = [(0 : ℚ), 1] := by
    norm_num [uniqueSorted, insertSortedNoDup]
  have h : detect_bias detWnoTarget (some dfW) (some [1, 0, 1, 1]) =
      Except.error PyErr.keyError := by
    simp [detect_bias, detWnoTarget, dfW,
      show List.lookup "g" [(("t" : String), ([1, 1, 1, 0] : List ℚ)), ("g", [0, 0, 1, 1])] =
        some [0, 0, 1, 1] from rfl,
      getColumn, hu, demographic_parity_difference, liftMetric, Except.bind]
  exact ⟨h, by rw [h]; rfl⟩

/-- Claim C9 amended: the two configuration `ValueError`s are raised
immediately — empty sensitive-attribute list, and unset target with no
predictions supplied — but an unset target with explicit predictions passes
validation, and the failure then surfaces only as a `KeyError` at the
`df[self.target]` lookup for the equalized-odds ground truth, after the
demographic-parity metric has been computed. -/
theorem detect_bias_config_errors
    (det : FairnessDetector) (df : DataFrame) (yp : Option (List ℚ))
    (p scol : List ℚ) (s0 : String) (rest : List String) (g0 g1 : ℚ) :
    (det.sensitive_attributes = [] →
      detect_bias det (some df) yp =
        Except.error (PyErr.valueError
          "No sensitive attributes set. Call set_sensitive_attributes().")) ∧
    (det.sensitive_attributes = s0 :: rest → det.target = none → yp = none →
      detect_bias det (some df) yp =
        Except.error (PyErr.valueError "No target set and no predictions provided.")) ∧
    (det.sensitive_attributes = s0 :: rest → det.target = none → yp = some p →
      df.cols.lookup s0 = some scol → uniqueSorted scol = [g0, g1] →
      detect_bias det (some df) yp = Except.error PyErr.keyError) := by
  refine ⟨?_, ?_, ?_⟩
  · intro hs
    simp [detect_bias, hs, Except.bind]
  · intro hs ht hy
    subst hy
    simp [detect_bias, hs, ht, Except.bind]
  · intro hs ht hy hcol hg
    subst hy
    simp [detect_bias, hs, ht, hcol, getColumn, hg,
      demographic_parity_difference, liftMetric, Except.bind]

theorem detect_bias_config_errors_witness :
    detect_bias detWempty (some dfW) none =
      Except.error (PyErr.valueError
        "No sensitive attributes set. Call set_sensitive_attributes().") ∧
    detect_bias detWnoTarget (some dfW) none =
      Except.error (PyErr.valueError "No target set and no predictions provided.") ∧
    detect_bias detWnoTarget (some dfW) (some [1, 0, 1, 1]) =
      Except.error PyErr.keyError :=
  ⟨(detect_bias_config_errors detWempty dfW none [] [] "g" [] 0 1).1 rfl,
   (detect_bias_config_errors detWnoTarget dfW none [] [] "g" [] 0 1).2.1
     rfl rfl rfl,
   (detect_bias_config_errors detWnoTarget dfW (some [1, 0, 1, 1]) [1, 0, 1, 1]
     [0, 0, 1, 1] "g" [] 0 1).2.2 rfl rfl rfl rfl
     (by norm_num [uniqueSorted, insertSortedNoDup])⟩
